import Mathlib

/-!
Shallow embedding of xterm-addon-offscreen (src/src/OffscreenAddon.ts).

Colors are concrete CSS strings, exactly the strings the source builds.
Canvas drawing is modelled as a list of draw operations; the addon's
mutable fields are an explicit state record threaded through the
operations that the source performs on `this`.
-/

/-- CSS color string rgb(r, g, b), as the template literals in the source. -/
def rgbString (r g b : Nat) : String :=
  "rgb(" ++ toString r ++ ", " ++ toString g ++ ", " ++ toString b ++ ")"

/-- DEFAULT_ANSI_COLORS: the fixed 16-color palette constant. -/
def DEFAULT_ANSI_COLORS : List String :=
  [ "#000000", "#cd0000", "#00cd00", "#cdcd00",
    "#0000ee", "#cd00cd", "#00cdcd", "#e5e5e5",
    "#7f7f7f", "#ff0000", "#00ff00", "#ffff00",
    "#5c5cff", "#ff00ff", "#00ffff", "#ffffff" ]

/-- Component levels of the 6x6x6 color cube, `levels` in generate256Colors. -/
def cubeLevels : List Nat := [0, 95, 135, 175, 215, 255]

/-- generate256Colors: 16 ANSI defaults, then the 6x6x6 cube, then the
24-step grayscale ramp. -/
def generate256Colors : List String :=
  DEFAULT_ANSI_COLORS
    ++ ((List.range 6).flatMap fun r =>
        (List.range 6).flatMap fun g =>
          (List.range 6).map fun b =>
            rgbString (cubeLevels.getD r 0) (cubeLevels.getD g 0) (cubeLevels.getD b 0))
    ++ ((List.range 24).map fun i => rgbString (8 + i * 10) (8 + i * 10) (8 + i * 10))

/-- PALETTE_256, the module-level constant. -/
def PALETTE_256 : List String := generate256Colors

/-- ITheme: optional named colors plus foreground, background and cursor. -/
structure ITheme where
  foreground : Option String := none
  background : Option String := none
  cursor : Option String := none
  black : Option String := none
  red : Option String := none
  green : Option String := none
  yellow : Option String := none
  blue : Option String := none
  magenta : Option String := none
  cyan : Option String := none
  white : Option String := none
  brightBlack : Option String := none
  brightRed : Option String := none
  brightGreen : Option String := none
  brightYellow : Option String := none
  brightBlue : Option String := none
  brightMagenta : Option String := none
  brightCyan : Option String := none
  brightWhite : Option String := none
  deriving DecidableEq

/-- Snapshot of the IBufferCell accessors the renderer reads. -/
structure BufferCell where
  getChars : String
  getWidth : Nat
  getFgColor : Nat
  getBgColor : Nat
  isFgDefault : Bool := false
  isBgDefault : Bool := false
  isFgRGB : Bool := false
  isBgRGB : Bool := false
  isFgPalette : Bool := false
  isBgPalette : Bool := false
  isInverse : Bool := false
  isBold : Bool := false
  isItalic : Bool := false
  isDim : Bool := false
  isUnderline : Bool := false
  isStrikethrough : Bool := false
  isOverline : Bool := false
  deriving DecidableEq

/-- _buildThemePalette: the 16-color band, theme slot or built-in default. -/
def buildThemePalette (theme : ITheme) : List String :=
  [ theme.black.getD (DEFAULT_ANSI_COLORS.getD 0 ""),
    theme.red.getD (DEFAULT_ANSI_COLORS.getD 1 ""),
    theme.green.getD (DEFAULT_ANSI_COLORS.getD 2 ""),
    theme.yellow.getD (DEFAULT_ANSI_COLORS.getD 3 ""),
    theme.blue.getD (DEFAULT_ANSI_COLORS.getD 4 ""),
    theme.magenta.getD (DEFAULT_ANSI_COLORS.getD 5 ""),
    theme.cyan.getD (DEFAULT_ANSI_COLORS.getD 6 ""),
    theme.white.getD (DEFAULT_ANSI_COLORS.getD 7 ""),
    theme.brightBlack.getD (DEFAULT_ANSI_COLORS.getD 8 ""),
    theme.brightRed.getD (DEFAULT_ANSI_COLORS.getD 9 ""),
    theme.brightGreen.getD (DEFAULT_ANSI_COLORS.getD 10 ""),
    theme.brightYellow.getD (DEFAULT_ANSI_COLORS.getD 11 ""),
    theme.brightBlue.getD (DEFAULT_ANSI_COLORS.getD 12 ""),
    theme.brightMagenta.getD (DEFAULT_ANSI_COLORS.getD 13 ""),
    theme.brightCyan.getD (DEFAULT_ANSI_COLORS.getD 14 ""),
    theme.brightWhite.getD (DEFAULT_ANSI_COLORS.getD 15 "") ]

/-- _getColor: resolve a cell color channel to a concrete color string.
The branches are checked in source order: default, RGB, palette, fallback.
For palette index below 16 the source indexes themePalette directly; that
list always has 16 entries, so the getD default is never reached. -/
def getColor (cell : BufferCell) (isForeground : Bool) (theme : ITheme)
    (themePalette : List String) : String :=
  let color := if isForeground then cell.getFgColor else cell.getBgColor
  if (if isForeground then cell.isFgDefault else cell.isBgDefault) then
    if isForeground then theme.foreground.getD "#ffffff"
    else theme.background.getD "#000000"
  else if (if isForeground then cell.isFgRGB else cell.isBgRGB) then
    rgbString ((color >>> 16) &&& 0xff) ((color >>> 8) &&& 0xff) (color &&& 0xff)
  else if (if isForeground then cell.isFgPalette else cell.isBgPalette) then
    if color < 16 then themePalette.getD color "#ffffff"
    else PALETTE_256.getD color "#ffffff"
  else
    if isForeground then theme.foreground.getD "#ffffff"
    else theme.background.getD "#000000"

/-- Channel selector for the default-mode predicate, as the inline
conditional in _getColor. -/
def cellIsDefault (cell : BufferCell) (isForeground : Bool) : Bool :=
  if isForeground then cell.isFgDefault else cell.isBgDefault

/-- Channel selector for the RGB-mode predicate. -/
def cellIsRGB (cell : BufferCell) (isForeground : Bool) : Bool :=
  if isForeground then cell.isFgRGB else cell.isBgRGB

/-- Channel selector for the palette-mode predicate. -/
def cellIsPalette (cell : BufferCell) (isForeground : Bool) : Bool :=
  if isForeground then cell.isFgPalette else cell.isBgPalette

/-- Channel selector for the raw color value. -/
def cellColor (cell : BufferCell) (isForeground : Bool) : Nat :=
  if isForeground then cell.getFgColor else cell.getBgColor

/-- Default-mode result: theme foreground falling back to white for the
foreground channel, theme background falling back to black otherwise. -/
def themeDefaultColor (theme : ITheme) (isForeground : Bool) : String :=
  if isForeground then theme.foreground.getD "#ffffff"
  else theme.background.getD "#000000"

/-- JS Math.ceil on a rational. -/
def jsCeil (q : ℚ) : Int := Int.ceil q

/-- JS Math.round on a rational: floor of q + 1/2. -/
def jsRound (q : ℚ) : Int := Int.floor (q + 1/2)

/-- One canvas-context drawing operation performed by _render.  Alpha is
the globalAlpha in effect for the operation. -/
inductive DrawOp where
  | fillRect (color : String) (alpha : ℚ) (x y w h : ℚ)
  | fillText (font : String) (color : String) (alpha : ℚ) (text : String) (x y : ℚ)
  deriving DecidableEq

/-- Font shorthand string assigned to ctx.font before a glyph draw. -/
def fontString (style : String) (fontSize : Int) (fontFamily : String) : String :=
  style ++ toString fontSize ++ "px " ++ fontFamily

/-- The per-cell body of the render loop: resolve colors (with inverse
swap), fill the background when it differs from the theme default, draw
the glyph (bold/italic font, half alpha when dim) and the
underline/strikethrough/overline decorations.  Width-0 cells are skipped
by the `continue` in the source. -/
def drawCell (cell : BufferCell) (theme : ITheme) (themePalette : List String)
    (x y : ℚ) (cellWidth cellHeight fontSize : Int) (fontFamily : String) : List DrawOp :=
  if cell.getWidth = 0 then []
  else
    let fg0 := getColor cell true theme themePalette
    let bg0 := getColor cell false theme themePalette
    let fgColor := if cell.isInverse then bg0 else fg0
    let bgColor := if cell.isInverse then fg0 else bg0
    let defaultBg := theme.background.getD "#000000"
    let spanW : ℚ := (cellWidth : ℚ) * (cell.getWidth : ℚ)
    let bgOps :=
      if bgColor ≠ defaultBg then
        [DrawOp.fillRect bgColor 1 x y spanW (cellHeight : ℚ)]
      else []
    let textOps :=
      if cell.getChars ≠ "" then
        let style := (if cell.isBold then "bold " else "")
          ++ (if cell.isItalic then "italic " else "")
        let alpha : ℚ := if cell.isDim then 1/2 else 1
        let textY : ℚ := y + ((cellHeight : ℚ) - (fontSize : ℚ)) / 2
        [DrawOp.fillText (fontString style fontSize fontFamily) fgColor alpha cell.getChars x textY]
          ++ (if cell.isUnderline then
                [DrawOp.fillRect fgColor 1 x (y + (cellHeight : ℚ) - 1) spanW 1] else [])
          ++ (if cell.isStrikethrough then
                [DrawOp.fillRect fgColor 1 x (y + (cellHeight : ℚ) / 2) spanW 1] else [])
          ++ (if cell.isOverline then
                [DrawOp.fillRect fgColor 1 x y spanW 1] else [])
      else []
    bgOps ++ textOps

/-- Inner column loop of _render over one buffer line; getCell past the
end of the line yields nothing and the column is skipped. -/
def renderRow (line : List BufferCell) (cols : Nat) (y : ℚ) (theme : ITheme)
    (themePalette : List String) (cellWidth cellHeight fontSize : Int)
    (fontFamily : String) : List DrawOp :=
  (List.range cols).flatMap fun col =>
    match line.get? col with
    | none => []
    | some cell =>
        drawCell cell theme themePalette (((col : Int) * cellWidth : Int) : ℚ) y
          cellWidth cellHeight fontSize fontFamily

/-- Snapshot of the terminal collaborator read by the addon. -/
structure TerminalState where
  cols : Nat
  rows : Nat
  fontSize : Option ℚ := none
  fontFamily : Option String := none
  lineHeight : Option ℚ := none
  theme : Option ITheme := none
  viewportY : Nat := 0
  lines : List (Option (List BufferCell)) := []
  cursorX : Int := 0
  cursorY : Int := 0
  exactCell : Option (ℚ × ℚ) := none
  deriving DecidableEq

/-- Row loop of _render: rows 0..rows-1, fetching line viewportY + row;
an unavailable line is skipped. -/
def cellOps (term : TerminalState) (theme : ITheme) (themePalette : List String)
    (cellWidth cellHeight fontSize : Int) (fontFamily : String) : List DrawOp :=
  (List.range term.rows).flatMap fun row =>
    match term.lines.getD (term.viewportY + row) none with
    | none => []
    | some line =>
        renderRow line term.cols (((row : Int) * cellHeight : Int) : ℚ) theme
          themePalette cellWidth cellHeight fontSize fontFamily

/-- Addon render options after validation. -/
structure OffscreenOptions where
  scaleFactor : ℚ
  showCursor : Bool
  deriving DecidableEq

/-- Cursor overlay of _render: a half-alpha one-cell rectangle in the
theme cursor color, only when showCursor is set and the viewport-relative
cursor position is inside the grid. -/
def cursorOps (term : TerminalState) (opts : OffscreenOptions) (theme : ITheme)
    (cellWidth cellHeight : Int) : List DrawOp :=
  if opts.showCursor = true ∧ 0 ≤ term.cursorY then
    if 0 ≤ term.cursorX ∧ term.cursorX < (term.cols : Int)
        ∧ 0 ≤ term.cursorY ∧ term.cursorY < (term.rows : Int) then
      [DrawOp.fillRect (theme.cursor.getD "#ffffff") (1/2)
        ((term.cursorX * cellWidth : Int) : ℚ) ((term.cursorY * cellHeight : Int) : ℚ)
        (cellWidth : ℚ) (cellHeight : ℚ)]
    else []
  else []

/-- Drawing part of _render: clear to theme background, draw every
visible cell, then the cursor overlay. -/
def renderFrame (term : TerminalState) (opts : OffscreenOptions)
    (cellWidth cellHeight canvasW canvasH : Int) : List DrawOp :=
  let theme := term.theme.getD {}
  let themePalette := buildThemePalette theme
  let fontSize := jsRound ((term.fontSize.getD 13) * opts.scaleFactor)
  let fontFamily := term.fontFamily.getD "courier-new, courier, monospace"
  [DrawOp.fillRect (theme.background.getD "#000000") 1 0 0 (canvasW : ℚ) (canvasH : ℚ)]
    ++ cellOps term theme themePalette cellWidth cellHeight fontSize fontFamily
    ++ cursorOps term opts theme cellWidth cellHeight

/-- _validateScaleFactor: non-positive (the non-finite case cannot arise
over the rationals) falls back to 1 with a console warning. -/
def validateScaleFactor (value : ℚ) : ℚ :=
  if value ≤ 0 then 1 else value

/-- The allocated OffscreenCanvas; id tracks buffer identity so that
reallocation is observable. -/
structure Canvas where
  id : Nat
  width : Int
  height : Int
  deriving DecidableEq

/-- Mutable fields of the OffscreenAddon instance. -/
structure AddonState where
  terminal : Option TerminalState := none
  canvas : Option Canvas := none
  options : OffscreenOptions
  cellWidth : Int := 0
  cellHeight : Int := 0
  charWidth : Int := 0
  charHeight : Int := 0
  nextId : Nat := 0
  deriving DecidableEq

/-- Constructor: validate scaleFactor, default showCursor to true. -/
def initialState (scaleFactor : Option ℚ) (showCursor : Option Bool) : AddonState :=
  { options :=
      { scaleFactor := validateScaleFactor (scaleFactor.getD 1),
        showCursor := showCursor.getD true } }

/-- Cell pixel size computed by _updateDimensions: exact host metrics
scaled when available (width > 0), else the fontSize-ratio approximation.
In both paths the source ends with charWidth = cellWidth and
charHeight = cellHeight. -/
def computeCellDims (term : TerminalState) (scale : ℚ) : Int × Int :=
  let fontSize := term.fontSize.getD 13
  let lineHeight := term.lineHeight.getD 1
  let approx := (jsCeil (fontSize * (3/5) * scale), jsCeil (fontSize * lineHeight * scale))
  match term.exactCell with
  | some cellDims =>
      if 0 < cellDims.1 then (jsCeil (cellDims.1 * scale), jsCeil (cellDims.2 * scale))
      else approx
  | none => approx

/-- Raster size computed by _updateDimensions: cols * cellWidth by
rows * cellHeight. -/
def computeCanvasSize (term : TerminalState) (scale : ℚ) : Int × Int :=
  ((term.cols : Int) * (computeCellDims term scale).1,
   (term.rows : Int) * (computeCellDims term scale).2)

/-- _updateDimensions: recompute cell metrics and reallocate the canvas
exactly when there is none or its width or height differs from the
computed size. -/
def updateDimensions (st : AddonState) : AddonState :=
  match st.terminal with
  | none => st
  | some term =>
    let scale := st.options.scaleFactor
    let dims := computeCellDims term scale
    let width := (term.cols : Int) * dims.1
    let height := (term.rows : Int) * dims.2
    let base := { st with cellWidth := dims.1, cellHeight := dims.2,
                          charWidth := dims.1, charHeight := dims.2 }
    match st.canvas with
    | some c =>
        if c.width = width ∧ c.height = height then base
        else { base with canvas := some ⟨st.nextId, width, height⟩,
                         nextId := st.nextId + 1 }
    | none => { base with canvas := some ⟨st.nextId, width, height⟩,
                          nextId := st.nextId + 1 }

/-- activate: store the terminal and create the canvas. -/
def activate (st : AddonState) (term : TerminalState) : AddonState :=
  updateDimensions { st with terminal := some term }

/-- dispose: drop the terminal, canvas, context and cell reference. -/
def dispose (st : AddonState) : AddonState :=
  { st with terminal := none, canvas := none }

/-- setOptions: merge validated fields, then null the canvas so the next
render recomputes dimensions. -/
def setOptions (st : AddonState) (scaleFactor : Option ℚ) (showCursor : Option Bool) :
    AddonState :=
  { st with
    options :=
      { scaleFactor :=
          match scaleFactor with
          | some v => validateScaleFactor v
          | none => st.options.scaleFactor,
        showCursor := showCursor.getD st.options.showCursor },
    canvas := none }

/-- _render: update dimensions, then emit the frame draw list; without a
terminal (or canvas) it bails out drawing nothing. -/
def render (st : AddonState) : AddonState × List DrawOp :=
  match st.terminal with
  | none => (st, [])
  | some term =>
    let st1 := updateDimensions st
    match st1.canvas with
    | none => (st1, [])
    | some c =>
        (st1, renderFrame term st1.options st1.cellWidth st1.cellHeight c.width c.height)

/-- Options of capture. -/
structure CaptureOptions where
  format : Option String := none
  type : Option String := none
  quality : Option ℚ := none
  deriving DecidableEq

/-- Result of capture; the encoding itself is delegated to the platform
codec, so blob and dataURL record the canvas and encode parameters. -/
inductive CaptureResult where
  | imageBitmap (canvas : Canvas)
  | dataURL (canvas : Canvas) (type : String) (quality : ℚ)
  | blob (canvas : Canvas) (type : String) (quality : ℚ)
  deriving DecidableEq

/-- capture: require an attached terminal, render, default format and
type, clamp quality into 0-1, then dispatch on format; an unrecognized
format is a hard error. -/
def capture (st : AddonState) (opts : CaptureOptions) :
    Except String (AddonState × CaptureResult) :=
  match st.terminal with
  | none => .error "Addon not activated"
  | some _ =>
    let go := render st
    let st1 := go.1
    match st1.canvas with
    | none => .error "Failed to create canvas"
    | some canvas =>
      let format := opts.format.getD "imageBitmap"
      let type := opts.type.getD "image/png"
      let quality := max 0 (min 1 (opts.quality.getD (92/100)))
      if format = "imageBitmap" then .ok (st1, .imageBitmap canvas)
      else if format = "dataURL" then .ok (st1, .dataURL canvas type quality)
      else if format = "blob" then .ok (st1, .blob canvas type quality)
      else .error ("Unknown format: " ++ format)

/-- getCanvas: require an attached terminal, render, return the canvas. -/
def getCanvas (st : AddonState) : Except String (AddonState × Canvas) :=
  match st.terminal with
  | none => .error "Addon not activated"
  | some _ =>
    let go := render st
    match go.1.canvas with
    | none => .error "Failed to create canvas"
    | some canvas => .ok (go.1, canvas)

/-- A filled rectangle drawn at half alpha; among all operations _render
emits, only the cursor highlight is one. -/
def isHalfAlphaRect : DrawOp → Bool
  | DrawOp.fillRect _ a _ _ _ _ => a == 1/2
  | _ => false

/-! Theorems. -/

set_option maxRecDepth 100000 in
/-- Length of the built-in 256-color table. -/
theorem PALETTE_256_length : PALETTE_256.length = 256 := by decide

/-- Length of the theme band. -/
theorem buildThemePalette_length (theme : ITheme) :
    (buildThemePalette theme).length = 16 := rfl

/-- getColor written uniformly over the channel selector. -/
theorem getColor_eq (cell : BufferCell) (isFg : Bool) (theme : ITheme) (tp : List String) :
    getColor cell isFg theme tp =
      if cellIsDefault cell isFg then themeDefaultColor theme isFg
      else if cellIsRGB cell isFg then
        rgbString ((cellColor cell isFg >>> 16) &&& 0xff)
          ((cellColor cell isFg >>> 8) &&& 0xff) (cellColor cell isFg &&& 0xff)
      else if cellIsPalette cell isFg then
        (if cellColor cell isFg < 16 then tp.getD (cellColor cell isFg) "#ffffff"
         else PALETTE_256.getD (cellColor cell isFg) "#ffffff")
      else themeDefaultColor theme isFg := by
  cases isFg <;> rfl

/-- C1: color resolution sends a Default descriptor to the theme
foreground or background with white or black fallback, a palette index
below 16 to the theme band entry at that index (for example entry 1 is
the theme red override, else #cd0000), a palette index from 16 to 255 to
the built-in 256-color table entry without consulting the theme, an RGB
value to its 8-bit channels, and an unrecognized descriptor to the same
value as the Default case. -/
theorem c1_color_resolution :
    ∀ (cell : BufferCell) (isFg : Bool) (theme : ITheme),
      (cellIsDefault cell isFg = true →
        getColor cell isFg theme (buildThemePalette theme) = themeDefaultColor theme isFg)
      ∧ (cellIsDefault cell isFg = false → cellIsRGB cell isFg = false →
          cellIsPalette cell isFg = true →
          (cellColor cell isFg < 16 →
            (buildThemePalette theme).get? (cellColor cell isFg)
              = some (getColor cell isFg theme (buildThemePalette theme)))
          ∧ (16 ≤ cellColor cell isFg → cellColor cell isFg ≤ 255 →
              PALETTE_256.get? (cellColor cell isFg)
                = some (getColor cell isFg theme (buildThemePalette theme))
              ∧ ∀ (theme2 : ITheme) (tp2 : List String),
                  getColor cell isFg theme2 tp2
                    = getColor cell isFg theme (buildThemePalette theme)))
      ∧ (cellIsDefault cell isFg = false → cellIsRGB cell isFg = true →
          getColor cell isFg theme (buildThemePalette theme)
            = rgbString ((cellColor cell isFg >>> 16) &&& 0xff)
                ((cellColor cell isFg >>> 8) &&& 0xff) (cellColor cell isFg &&& 0xff))
      ∧ (cellIsDefault cell isFg = false → cellIsRGB cell isFg = false →
          cellIsPalette cell isFg = false →
          getColor cell isFg theme (buildThemePalette theme) = themeDefaultColor theme isFg)
      ∧ (buildThemePalette theme).get? 1 = some (theme.red.getD "#cd0000") := by
  intro cell isFg theme
  refine ⟨?_, ?_, ?_, ?_, ?_⟩
  · intro h
    simp [getColor_eq, h]
  · intro h1 h2 h3
    constructor
    · intro hlt
      have hband : (cellColor cell isFg) < (buildThemePalette theme).length := by
        rw [buildThemePalette_length]; exact hlt
      have hsome := List.getElem?_eq_getElem hband
      simp [getColor_eq, h1, h2, h3, hlt, List.getD_eq_getElem?_getD,
        List.get?_eq_getElem?, hsome]
    · intro hge hle
      have hnot : ¬ (cellColor cell isFg < 16) := by omega
      have hlt : (cellColor cell isFg) < PALETTE_256.length := by
        rw [PALETTE_256_length]; omega
      have hsome := List.getElem?_eq_getElem hlt
      refine ⟨?_, ?_⟩
      · simp [getColor_eq, h1, h2, h3, hnot, List.getD_eq_getElem?_getD,
          List.get?_eq_getElem?, hsome]
      · intro theme2 tp2
        simp [getColor_eq, h1, h2, h3, hnot]
  · intro h1 h2
    simp [getColor_eq, h1, h2]
  · intro h1 h2 h3
    simp [getColor_eq, h1, h2, h3]
  · cases htc : theme.red <;> simp [buildThemePalette, htc, DEFAULT_ANSI_COLORS]

/-- Witness for C1 at palette index 1 with an empty theme. -/
theorem c1_color_resolution_witness :
    (buildThemePalette {}).get? 1
      = some (getColor { getChars := "A", getWidth := 1, getFgColor := 1, getBgColor := 0,
                         isFgPalette := true } true {} (buildThemePalette {})) :=
  ((c1_color_resolution
      { getChars := "A", getWidth := 1, getFgColor := 1, getBgColor := 0,
        isFgPalette := true } true {}).2.1
    (by decide) (by decide) (by decide)).1 (by decide)

set_option maxRecDepth 100000 in
/-- C2: the built-in palette is a 256-entry constant, ANSI defaults at
0-15, the 6x6x6 cube over the fixed levels at 16-231 with origin
rgb(0, 0, 0) at 16, and the 24-step grayscale ramp 8 + 10k at 232-255,
ending at rgb(238, 238, 238); computing it twice yields the same list. -/
theorem c2_palette_table :
    generate256Colors.length = 256
    ∧ (∀ i, i < 16 → generate256Colors.getD i "" = DEFAULT_ANSI_COLORS.getD i "")
    ∧ (∀ r, r < 6 → ∀ g, g < 6 → ∀ b, b < 6 →
        generate256Colors.getD (16 + 36 * r + 6 * g + b) ""
          = rgbString (cubeLevels.getD r 0) (cubeLevels.getD g 0) (cubeLevels.getD b 0))
    ∧ generate256Colors.getD 16 "" = rgbString 0 0 0
    ∧ (∀ k, k < 24 → generate256Colors.getD (232 + k) ""
        = rgbString (8 + 10 * k) (8 + 10 * k) (8 + 10 * k))
    ∧ generate256Colors.getD 232 "" = rgbString 8 8 8
    ∧ generate256Colors.getD 255 "" = rgbString 238 238 238
    ∧ generate256Colors = generate256Colors := by
  refine ⟨by decide, by decide, by decide, by decide, by decide, by decide, by decide, rfl⟩

/-- Witness for C2 at cube coordinates (5, 0, 3). -/
theorem c2_palette_table_witness :
    generate256Colors.getD (16 + 36 * 5 + 6 * 0 + 3) ""
      = rgbString (cubeLevels.getD 5 0) (cubeLevels.getD 0 0) (cubeLevels.getD 3 0) :=
  c2_palette_table.2.2.1 5 (by decide) 0 (by decide) 3 (by decide)

/-- C10: a palette descriptor whose index exceeds 255 resolves, on either
channel, to the fixed fallback #ffffff instead of failing. -/
theorem c10_palette_overflow :
    ∀ (cell : BufferCell) (isFg : Bool) (theme : ITheme) (tp : List String),
      cellIsDefault cell isFg = false → cellIsRGB cell isFg = false →
      cellIsPalette cell isFg = true → 255 < cellColor cell isFg →
      getColor cell isFg theme tp = "#ffffff" := by
  intro cell isFg theme tp h1 h2 h3 hgt
  have hnot : ¬ (cellColor cell isFg < 16) := by omega
  have hlen : PALETTE_256.length ≤ cellColor cell isFg := by
    rw [PALETTE_256_length]; omega
  simp [getColor_eq, h1, h2, h3, hnot, List.getD_eq_getElem?_getD,
    List.getElem?_eq_none hlen]

/-- Witness for C10 at palette index 300. -/
theorem c10_palette_overflow_witness :
    getColor { getChars := "A", getWidth := 1, getFgColor := 300, getBgColor := 0,
               isFgPalette := true } true {} [] = "#ffffff" :=
  c10_palette_overflow
    { getChars := "A", getWidth := 1, getFgColor := 300, getBgColor := 0,
      isFgPalette := true } true {} [] (by decide) (by decide) (by decide) (by decide)

/-- C3: inverse video is a post-resolution swap: a cell with inverse set
and resolved foreground A and background B draws exactly what an
otherwise identical non-inverse cell draws whose foreground resolves to B
and background to A. -/
theorem c3_inverse_swap :
    ∀ (c c2 : BufferCell) (theme : ITheme) (tp : List String) (x y : ℚ)
      (cw ch fs : Int) (ff : String),
      c.isInverse = true → c2.isInverse = false →
      c2.getChars = c.getChars → c2.getWidth = c.getWidth →
      c2.isBold = c.isBold → c2.isItalic = c.isItalic → c2.isDim = c.isDim →
      c2.isUnderline = c.isUnderline → c2.isStrikethrough = c.isStrikethrough →
      c2.isOverline = c.isOverline →
      getColor c2 true theme tp = getColor c false theme tp →
      getColor c2 false theme tp = getColor c true theme tp →
      drawCell c theme tp x y cw ch fs ff = drawCell c2 theme tp x y cw ch fs ff := by
  intro c c2 theme tp x y cw ch fs ff hi hi2 hch hw hb hit hd hu hs ho hfg hbg
  simp [drawCell, hi, hi2, hch, hw, hb, hit, hd, hu, hs, ho, hfg, hbg]

/-- Witness for C3: palette-red-on-default inverse cell versus the
pre-swapped cell, over a theme with black foreground. -/
theorem c3_inverse_swap_witness :
    drawCell { getChars := "A", getWidth := 1, getFgColor := 1, getBgColor := 0,
               isFgPalette := true, isBgDefault := true, isInverse := true }
        { foreground := some "#000000" }
        (buildThemePalette { foreground := some "#000000" }) 0 0 7 13 13 "monospace"
      = drawCell { getChars := "A", getWidth := 1, getFgColor := 0, getBgColor := 1,
                   isFgDefault := true, isBgPalette := true }
          { foreground := some "#000000" }
          (buildThemePalette { foreground := some "#000000" }) 0 0 7 13 13 "monospace" :=
  c3_inverse_swap
    { getChars := "A", getWidth := 1, getFgColor := 1, getBgColor := 0,
      isFgPalette := true, isBgDefault := true, isInverse := true }
    { getChars := "A", getWidth := 1, getFgColor := 0, getBgColor := 1,
      isFgDefault := true, isBgPalette := true }
    { foreground := some "#000000" }
    (buildThemePalette { foreground := some "#000000" }) 0 0 7 13 13 "monospace"
    rfl rfl rfl rfl rfl rfl rfl rfl rfl rfl (by decide) (by decide)

set_option maxHeartbeats 1600000 in
/-- Every filled rectangle a cell draws spans cellWidth times the cell's
display width. -/
theorem drawCell_rect_width :
    ∀ (cell : BufferCell) (theme : ITheme) (tp : List String) (x y : ℚ)
      (cw ch fs : Int) (ff : String) (cl : String) (a rx ry w h : ℚ),
      DrawOp.fillRect cl a rx ry w h ∈ drawCell cell theme tp x y cw ch fs ff →
      w = (cw : ℚ) * (cell.getWidth : ℚ) := by
  intro cell theme tp x y cw ch fs ff cl a rx ry w h hmem
  unfold drawCell at hmem
  generalize getColor cell true theme tp = fgc at hmem
  generalize getColor cell false theme tp = bgc at hmem
  by_cases h0 : cell.getWidth = 0
  · rw [if_pos h0] at hmem
    simp at hmem
  · rw [if_neg h0] at hmem
    split_ifs at hmem <;> simp_all <;> tauto

/-- C4: a width-0 cell draws nothing, and a width-2 cell followed by its
width-0 continuation draws exactly the width-2 cell's operations once,
every rectangle spanning two cell-widths. -/
theorem c4_zero_width :
    (∀ (cell : BufferCell) (theme : ITheme) (tp : List String) (x y : ℚ)
       (cw ch fs : Int) (ff : String),
       cell.getWidth = 0 → drawCell cell theme tp x y cw ch fs ff = [])
    ∧ (∀ (c2 c0 : BufferCell) (theme : ITheme) (tp : List String) (y : ℚ)
         (cw ch fs : Int) (ff : String),
         c2.getWidth = 2 → c0.getWidth = 0 →
         renderRow [c2, c0] 2 y theme tp cw ch fs ff
           = drawCell c2 theme tp 0 y cw ch fs ff
         ∧ (∀ (cl : String) (a rx ry w h : ℚ),
             DrawOp.fillRect cl a rx ry w h ∈ drawCell c2 theme tp 0 y cw ch fs ff →
             w = (cw : ℚ) * 2)) := by
  constructor
  · intro cell theme tp x y cw ch fs ff h
    simp [drawCell, h]
  · intro c2 c0 theme tp y cw ch fs ff h2 h0
    constructor
    · have hr : List.range 2 = [0, 1] := rfl
      simp [renderRow, hr, drawCell, h0]
    · intro cl a rx ry w h hmem
      have hw := drawCell_rect_width c2 theme tp 0 y cw ch fs ff cl a rx ry w h hmem
      rw [h2] at hw
      push_cast at hw
      exact hw

/-- Witness for C4: a concrete wide cell and its continuation cell. -/
theorem c4_zero_width_witness :
    renderRow
        [{ getChars := "W", getWidth := 2, getFgColor := 0, getBgColor := 0,
           isFgDefault := true, isBgDefault := true },
         { getChars := "", getWidth := 0, getFgColor := 0, getBgColor := 0,
           isFgDefault := true, isBgDefault := true }] 2 0 {} [] 7 13 13 "monospace"
      = drawCell
          { getChars := "W", getWidth := 2, getFgColor := 0, getBgColor := 0,
            isFgDefault := true, isBgDefault := true } {} [] 0 0 7 13 13 "monospace" :=
  ((c4_zero_width.2
    { getChars := "W", getWidth := 2, getFgColor := 0, getBgColor := 0,
      isFgDefault := true, isBgDefault := true }
    { getChars := "", getWidth := 0, getFgColor := 0, getBgColor := 0,
      isFgDefault := true, isBgDefault := true }
    {} [] 0 7 13 13 "monospace" rfl rfl).1)

theorem updateDimensions_terminal (st : AddonState) :
    (updateDimensions st).terminal = st.terminal := by
  cases hterm : st.terminal with
  | none => simp [updateDimensions, hterm]
  | some term =>
    cases hcv : st.canvas with
    | none => simp [updateDimensions, hterm, hcv]
    | some c =>
      by_cases hdim : c.width = (term.cols : Int) * (computeCellDims term st.options.scaleFactor).1
          ∧ c.height = (term.rows : Int) * (computeCellDims term st.options.scaleFactor).2 <;>
        simp [updateDimensions, hterm, hcv, hdim]

/-- The state after _render is the state after _updateDimensions. -/
theorem render_fst (st : AddonState) : (render st).1 = updateDimensions st := by
  cases hterm : st.terminal with
  | none => simp [render, updateDimensions, hterm]
  | some term =>
    simp [render, hterm]
    cases hcv : (updateDimensions st).canvas <;> simp

/-- C5: _updateDimensions is idempotent, so a second render with nothing
changed keeps the same canvas; the canvas is kept exactly when its width
and height equal the computed cols * cellWidth and rows * cellHeight;
setOptions nulls the canvas, and the next _updateDimensions after a
setOptions scale change allocates a canvas of the newly computed size. -/
theorem c5_reallocation :
    (∀ st : AddonState, updateDimensions (updateDimensions st) = updateDimensions st)
    ∧ (∀ st : AddonState, (render (render st).1).1 = (render st).1)
    ∧ (∀ (st : AddonState) (term : TerminalState), st.terminal = some term →
        ((updateDimensions st).canvas = st.canvas ↔
          ∃ c, st.canvas = some c
            ∧ c.width = (computeCanvasSize term st.options.scaleFactor).1
            ∧ c.height = (computeCanvasSize term st.options.scaleFactor).2))
    ∧ (∀ (st : AddonState) (sf : Option ℚ) (sc : Option Bool),
        (setOptions st sf sc).canvas = none)
    ∧ (∀ (st : AddonState) (term : TerminalState) (v : ℚ),
        st.terminal = some term → 0 < v →
        (updateDimensions (setOptions st (some v) none)).canvas
          = some ⟨st.nextId, (computeCanvasSize term v).1, (computeCanvasSize term v).2⟩) := by
  have hupd : ∀ st : AddonState, updateDimensions (updateDimensions st) = updateDimensions st := by
    intro st
    cases hterm : st.terminal with
    | none => simp [updateDimensions, hterm]
    | some term =>
      cases hcv : st.canvas with
      | none =>
        simp [updateDimensions, hterm, hcv, computeCanvasSize]
      | some c =>
        by_cases hdim : c.width = (term.cols : Int) * (computeCellDims term st.options.scaleFactor).1
            ∧ c.height = (term.rows : Int) * (computeCellDims term st.options.scaleFactor).2
        · simp [updateDimensions, hterm, hcv, hdim]
        · simp [updateDimensions, hterm, hcv, hdim]
  refine ⟨hupd, ?_, ?_, ?_, ?_⟩
  · intro st
    rw [render_fst, render_fst, hupd]
  · intro st term hterm
    cases hcv : st.canvas with
    | none =>
      constructor
      · intro h
        rw [show (updateDimensions st).canvas
            = some ⟨st.nextId, (term.cols : Int) * (computeCellDims term st.options.scaleFactor).1,
                (term.rows : Int) * (computeCellDims term st.options.scaleFactor).2⟩ from by
          simp [updateDimensions, hterm, hcv]] at h
        simp [hcv] at h
      · rintro ⟨c, hc, -, -⟩
        simp at hc
    | some c =>
      by_cases hdim : c.width = (term.cols : Int) * (computeCellDims term st.options.scaleFactor).1
          ∧ c.height = (term.rows : Int) * (computeCellDims term st.options.scaleFactor).2
      · constructor
        · intro _
          exact ⟨c, rfl, by simpa [computeCanvasSize] using hdim.1,
            by simpa [computeCanvasSize] using hdim.2⟩
        · intro _
          simp [updateDimensions, hterm, hcv, hdim]
      · constructor
        · intro h
          rw [show (updateDimensions st).canvas
              = some ⟨st.nextId, (term.cols : Int) * (computeCellDims term st.options.scaleFactor).1,
                  (term.rows : Int) * (computeCellDims term st.options.scaleFactor).2⟩ from by
            simp [updateDimensions, hterm, hcv, hdim]] at h
          injection h with h
          exact absurd ⟨by rw [← h], by rw [← h]⟩ hdim
        · rintro ⟨c2, hc2, hw2, hh2⟩
          injection hc2 with hc2
          subst hc2
          simp [computeCanvasSize] at hw2 hh2
          exact absurd ⟨hw2, hh2⟩ hdim
  · intro st sf sc
    simp [setOptions]
  · intro st term v hterm hv
    have hval : validateScaleFactor v = v := if_neg (not_le.2 hv)
    simp [updateDimensions, setOptions, hterm, hval, computeCanvasSize]

/-- Witness for C5: a 2x1 terminal, scale factor changed to 2. -/
theorem c5_reallocation_witness :
    (updateDimensions (setOptions (activate (initialState none none)
        { cols := 2, rows := 1 }) (some 2) none)).canvas
      = some ⟨(activate (initialState none none) { cols := 2, rows := 1 }).nextId,
          (computeCanvasSize { cols := 2, rows := 1 } 2).1,
          (computeCanvasSize { cols := 2, rows := 1 } 2).2⟩ :=
  c5_reallocation.2.2.2.2 (activate (initialState none none) { cols := 2, rows := 1 })
    { cols := 2, rows := 1 } 2
    (by rw [activate, updateDimensions_terminal]) (by norm_num)

/-- No cell drawing operation is a half-alpha rectangle. -/
theorem drawCell_filter_half (cell : BufferCell) (theme : ITheme) (tp : List String)
    (x y : ℚ) (cw ch fs : Int) (ff : String) :
    (drawCell cell theme tp x y cw ch fs ff).filter isHalfAlphaRect = [] := by
  unfold drawCell
  split
  · rfl
  · simp [List.filter_append, apply_ite (List.filter isHalfAlphaRect),
      isHalfAlphaRect, beq_iff_eq]

/-- No row drawing operation is a half-alpha rectangle. -/
theorem renderRow_filter_half (line : List BufferCell) (cols : Nat) (y : ℚ)
    (theme : ITheme) (tp : List String) (cw ch fs : Int) (ff : String) :
    (renderRow line cols y theme tp cw ch fs ff).filter isHalfAlphaRect = [] := by
  unfold renderRow
  rw [List.filter_flatMap]
  apply List.flatMap_eq_nil_iff.2
  intro col _
  cases hget : line.get? col with
  | none => simp
  | some cell => simp [drawCell_filter_half]

/-- No grid-content drawing operation is a half-alpha rectangle. -/
theorem cellOps_filter_half (term : TerminalState) (theme : ITheme) (tp : List String)
    (cw ch fs : Int) (ff : String) :
    (cellOps term theme tp cw ch fs ff).filter isHalfAlphaRect = [] := by
  unfold cellOps
  rw [List.filter_flatMap]
  apply List.flatMap_eq_nil_iff.2
  intro row _
  cases hget : term.lines.getD (term.viewportY + row) none with
  | none => simp
  | some line => simp [renderRow_filter_half]

/-- C6: the frame contains a cursor highlight, a half-alpha one-cell
rectangle in the theme cursor color at the cursor cell, exactly when
showCursor is set and the viewport-relative cursor position lies in
[0, cols) x [0, rows); when present it is the last operation drawn. -/
theorem c6_cursor_overlay :
    ∀ (term : TerminalState) (opts : OffscreenOptions) (cw ch cvw cvh : Int),
      ((renderFrame term opts cw ch cvw cvh).filter isHalfAlphaRect
        = if opts.showCursor = true ∧ 0 ≤ term.cursorX ∧ term.cursorX < (term.cols : Int)
             ∧ 0 ≤ term.cursorY ∧ term.cursorY < (term.rows : Int)
          then [DrawOp.fillRect ((term.theme.getD {}).cursor.getD "#ffffff") (1/2)
                 ((term.cursorX * cw : Int) : ℚ) ((term.cursorY * ch : Int) : ℚ)
                 (cw : ℚ) (ch : ℚ)]
          else [])
      ∧ (opts.showCursor = true → 0 ≤ term.cursorX → term.cursorX < (term.cols : Int) →
          0 ≤ term.cursorY → term.cursorY < (term.rows : Int) →
          (renderFrame term opts cw ch cvw cvh).getLast?
            = some (DrawOp.fillRect ((term.theme.getD {}).cursor.getD "#ffffff") (1/2)
                 ((term.cursorX * cw : Int) : ℚ) ((term.cursorY * ch : Int) : ℚ)
                 (cw : ℚ) (ch : ℚ))) := by
  intro term opts cw ch cvw cvh
  constructor
  · simp only [renderFrame, List.filter_append, cellOps_filter_half, List.append_nil,
      List.nil_append]
    rw [show (List.filter isHalfAlphaRect
        [DrawOp.fillRect ((term.theme.getD {}).background.getD "#000000") 1 0 0
          (cvw : ℚ) (cvh : ℚ)]) = [] from by simp [isHalfAlphaRect, beq_iff_eq]]
    rw [List.nil_append]
    unfold cursorOps
    simp only [apply_ite (List.filter isHalfAlphaRect), List.filter_nil]
    rw [show (List.filter isHalfAlphaRect
        [DrawOp.fillRect ((term.theme.getD {}).cursor.getD "#ffffff") (1/2)
          ((term.cursorX * cw : Int) : ℚ) ((term.cursorY * ch : Int) : ℚ)
          (cw : ℚ) (ch : ℚ)]) =
        [DrawOp.fillRect ((term.theme.getD {}).cursor.getD "#ffffff") (1/2)
          ((term.cursorX * cw : Int) : ℚ) ((term.cursorY * ch : Int) : ℚ)
          (cw : ℚ) (ch : ℚ)] from by simp [isHalfAlphaRect, beq_iff_eq]]
    split_ifs <;> first | rfl | tauto
  · intro h1 h2 h3 h4 h5
    have hcur : cursorOps term opts (term.theme.getD {}) cw ch
        = [DrawOp.fillRect ((term.theme.getD {}).cursor.getD "#ffffff") (1/2)
            ((term.cursorX * cw : Int) : ℚ) ((term.cursorY * ch : Int) : ℚ)
            (cw : ℚ) (ch : ℚ)] := by
      simp [cursorOps, h1, h2, h3, h4, h5]
    simp only [renderFrame]
    rw [hcur, List.getLast?_concat]

/-- Witness for C6: cursor at origin of a 1x1 grid with showCursor. -/
theorem c6_cursor_overlay_witness :
    (renderFrame { cols := 1, rows := 1 } { scaleFactor := 1, showCursor := true }
        7 13 7 13).getLast?
      = some (DrawOp.fillRect
          ((({ cols := 1, rows := 1 } : TerminalState).theme.getD {}).cursor.getD "#ffffff")
          (1/2)
          ((({ cols := 1, rows := 1 } : TerminalState).cursorX * 7 : Int) : ℚ)
          ((({ cols := 1, rows := 1 } : TerminalState).cursorY * 13 : Int) : ℚ)
          ((7 : Int) : ℚ) ((13 : Int) : ℚ)) :=
  (c6_cursor_overlay { cols := 1, rows := 1 } { scaleFactor := 1, showCursor := true }
      7 13 7 13).2
    rfl (by decide) (by decide) (by decide) (by decide)

/-- With a terminal attached, _updateDimensions leaves a canvas. -/
theorem updateDimensions_canvas_isSome (st : AddonState) (term : TerminalState)
    (h : st.terminal = some term) : ∃ c, (updateDimensions st).canvas = some c := by
  cases hcv : st.canvas with
  | none =>
    exact ⟨⟨st.nextId, (term.cols : Int) * (computeCellDims term st.options.scaleFactor).1,
      (term.rows : Int) * (computeCellDims term st.options.scaleFactor).2⟩,
      by simp [updateDimensions, h, hcv]⟩
  | some c =>
    by_cases hdim : c.width = (term.cols : Int) * (computeCellDims term st.options.scaleFactor).1
        ∧ c.height = (term.rows : Int) * (computeCellDims term st.options.scaleFactor).2
    · exact ⟨c, by simp [updateDimensions, h, hcv, hdim]⟩
    · exact ⟨⟨st.nextId, (term.cols : Int) * (computeCellDims term st.options.scaleFactor).1,
        (term.rows : Int) * (computeCellDims term st.options.scaleFactor).2⟩,
        by simp [updateDimensions, h, hcv, hdim]⟩

/-- The unknown-format error never collides with the precondition error. -/
theorem unknown_format_ne (fmt : String) :
    ("Unknown format: " ++ fmt) ≠ "Addon not activated" := by
  intro h
  have h2 := congrArg String.data h
  rw [String.data_append] at h2
  simp at h2

/-- C7: with the addon activated, capture of a format outside the three
supported ones fails with the unknown-format error, and each supported
format succeeds rather than raising it. -/
theorem c7_unknown_format :
    ∀ (st : AddonState) (term : TerminalState) (ty : Option String) (q : Option ℚ)
      (fmt : String),
      st.terminal = some term →
      (fmt ≠ "imageBitmap" → fmt ≠ "dataURL" → fmt ≠ "blob" →
        capture st ⟨some fmt, ty, q⟩ = .error ("Unknown format: " ++ fmt))
      ∧ (fmt = "imageBitmap" ∨ fmt = "dataURL" ∨ fmt = "blob" →
        ∃ out, capture st ⟨some fmt, ty, q⟩ = .ok out) := by
  intro st term ty q fmt hterm
  obtain ⟨c, hc⟩ := updateDimensions_canvas_isSome st term hterm
  have hrc : (render st).1.canvas = some c := by rw [render_fst]; exact hc
  constructor
  · intro h1 h2 h3
    simp [capture, hterm, hrc, h1, h2, h3]
  · rintro (rfl | rfl | rfl)
    · exact ⟨((render st).1, .imageBitmap c), by simp [capture, hterm, hrc]⟩
    · exact ⟨((render st).1, .dataURL c (ty.getD "image/png")
        (max 0 (min 1 (q.getD (92/100))))), by simp [capture, hterm, hrc]⟩
    · exact ⟨((render st).1, .blob c (ty.getD "image/png")
        (max 0 (min 1 (q.getD (92/100))))), by simp [capture, hterm, hrc]⟩

/-- Witness for C7 at format svg. -/
theorem c7_unknown_format_witness :
    capture (activate (initialState none none) { cols := 2, rows := 1 })
        ⟨some "svg", none, none⟩
      = .error ("Unknown format: " ++ "svg") :=
  (c7_unknown_format (activate (initialState none none) { cols := 2, rows := 1 })
      { cols := 2, rows := 1 } none none "svg"
      (by rw [activate, updateDimensions_terminal])).1
    (by decide) (by decide) (by decide)

/-- C8: capture and getCanvas fail with the not-activated error whenever
no terminal is attached, in particular on a fresh instance and after
dispose, and never produce that error while a terminal is attached. -/
theorem c8_activation_guard :
    (∀ (st : AddonState) (opts : CaptureOptions), st.terminal = none →
        capture st opts = .error "Addon not activated"
        ∧ getCanvas st = .error "Addon not activated")
    ∧ (∀ (st : AddonState) (opts : CaptureOptions),
        capture (dispose st) opts = .error "Addon not activated"
        ∧ getCanvas (dispose st) = .error "Addon not activated")
    ∧ (∀ (scale : Option ℚ) (cur : Option Bool) (opts : CaptureOptions),
        capture (initialState scale cur) opts = .error "Addon not activated"
        ∧ getCanvas (initialState scale cur) = .error "Addon not activated")
    ∧ (∀ (st : AddonState) (term : TerminalState) (opts : CaptureOptions),
        st.terminal = some term →
        capture st opts ≠ .error "Addon not activated"
        ∧ getCanvas st ≠ .error "Addon not activated") := by
  refine ⟨?_, ?_, ?_, ?_⟩
  · intro st opts h
    exact ⟨by simp [capture, h], by simp [getCanvas, h]⟩
  · intro st opts
    exact ⟨by simp [capture, dispose], by simp [getCanvas, dispose]⟩
  · intro scale cur opts
    exact ⟨by simp [capture, initialState], by simp [getCanvas, initialState]⟩
  · intro st term opts hterm
    obtain ⟨c, hc⟩ := updateDimensions_canvas_isSome st term hterm
    have hrc : (render st).1.canvas = some c := by rw [render_fst]; exact hc
    constructor
    · simp only [capture, hterm, hrc]
      split_ifs <;> simp [unknown_format_ne]
    · simp [getCanvas, hterm, hrc]

/-- Witness for C8 on a fresh instance. -/
theorem c8_activation_guard_witness :
    capture (initialState none none) ⟨some "imageBitmap", none, none⟩
        = .error "Addon not activated"
      ∧ getCanvas (initialState none none) = .error "Addon not activated" :=
  c8_activation_guard.1 (initialState none none) ⟨some "imageBitmap", none, none⟩ rfl

/-- C9: capture quality is clamped into 0-1: quality 5 behaves exactly
like quality 1 and quality -5 like quality 0, an omitted quality becomes
0.92, and an in-range quality is passed through unchanged. -/
theorem c9_quality_clamp :
    ∀ (st : AddonState) (fmt ty : Option String),
      (capture st ⟨fmt, ty, some 5⟩ = capture st ⟨fmt, ty, some 1⟩)
      ∧ (capture st ⟨fmt, ty, some (-5)⟩ = capture st ⟨fmt, ty, some 0⟩)
      ∧ (∀ (term : TerminalState) (q : ℚ), st.terminal = some term → 0 ≤ q → q ≤ 1 →
          ∃ c, capture st ⟨some "blob", ty, some q⟩
            = .ok ((render st).1, .blob c (ty.getD "image/png") q))
      ∧ (∀ term : TerminalState, st.terminal = some term →
          ∃ c, capture st ⟨some "blob", ty, none⟩
            = .ok ((render st).1, .blob c (ty.getD "image/png") (92/100))) := by
  intro st fmt ty
  refine ⟨?_, ?_, ?_, ?_⟩
  · simp only [capture, Option.getD_some]
    rw [show max (0:ℚ) (min 1 5) = max 0 (min 1 1) from by norm_num]
  · simp only [capture, Option.getD_some]
    rw [show max (0:ℚ) (min 1 (-5)) = max 0 (min 1 0) from by norm_num]
  · intro term q hterm hq0 hq1
    obtain ⟨c, hc⟩ := updateDimensions_canvas_isSome st term hterm
    have hrc : (render st).1.canvas = some c := by rw [render_fst]; exact hc
    have hcl : max (0:ℚ) (min 1 q) = q := by
      rw [min_eq_right hq1, max_eq_right hq0]
    exact ⟨c, by simp [capture, hterm, hrc, hcl]⟩
  · intro term hterm
    obtain ⟨c, hc⟩ := updateDimensions_canvas_isSome st term hterm
    have hrc : (render st).1.canvas = some c := by rw [render_fst]; exact hc
    have hcl : max (0:ℚ) (min 1 (92/100)) = 92/100 := by norm_num
    exact ⟨c, by simp [capture, hterm, hrc, hcl]⟩

/-- Witness for C9: quality 5 equals quality 1 on a 2x1 terminal. -/
theorem c9_quality_clamp_witness :
    capture (activate (initialState none none) { cols := 2, rows := 1 })
        ⟨some "blob", none, some 5⟩
      = capture (activate (initialState none none) { cols := 2, rows := 1 })
        ⟨some "blob", none, some 1⟩ :=
  (c9_quality_clamp (activate (initialState none none) { cols := 2, rows := 1 })
      (some "blob") none).1
